import Mathlib

set_option autoImplicit false

/-!
Shallow embedding of the Misty robot SDK event-subscription client
(api_wrappers.py: ApiWrapperMixin, WebSocketStream) and of the hazard
subscription helper (misty.py: Robot.add_hazard_notification).

Network effects are made explicit: each operation takes an oracle describing
the outcome of its network calls (connect, send, recv) and returns the updated
object state, an exception-or-result, and the list of network actions that
completed. Exceptions propagate in Python leaving the mutated object behind,
so the updated state is returned even on error.
-/

namespace Misty

/-- JSON values, as produced by json.dumps on the Python dict literals.
Objects keep key order (Python dicts preserve insertion order and json.dumps
serializes keys in that order). -/
inductive Json where
  | null : Json
  | str : String → Json
  | num : Int → Json
  | arr : List Json → Json
  | obj : List (String × Json) → Json

/-- A websocket connection object as returned by websockets.connect.
The id distinguishes distinct connection objects; closed is set by close(). -/
structure Connection where
  id : Nat
  closed : Bool
deriving DecidableEq, Repr

/-- A completed network action, for stating what an operation did on the wire. -/
inductive NetAction where
  | connect (c : Connection)
  | send (c : Connection) (msg : Json)
  | recv (c : Connection) (msg : String)
  | close (c : Connection)

/-- Exceptions raised by WebSocketStream operations.
noActiveSubscription is the Exception "No active WebSocket subscription for
(event_name)" raised by unsubscribe and get_message (the NotSubscribed of the
design document); streamException is the Exception "WebSocket stream
exception: " plus the raw response raised by subscribe (SubscriptionRejected);
transportError stands for any exception raised inside the websockets library:
failed connect, failed send, send or recv on a closed connection, failed recv. -/
inductive WsError where
  | noActiveSubscription (event_name : String)
  | streamException (resp : String)
  | transportError
deriving DecidableEq, Repr

/-- The Conditions type alias: an optional iterable of
(Property, Inequality, Value) triples. -/
abbrev Conditions := Option (List (String × String × String))

/-- One element of the list built by generate_event_conditions: the dict with
keys Property, Inequality, Value. -/
structure EventCondition where
  Property : String
  Inequality : String
  Value : String
deriving DecidableEq, Repr

/-- WebSocketStream instance state: the constructor arguments stored by
__init__ plus the websocket attribute (None until subscribe assigns it). -/
structure WebSocketStream where
  uri : String
  websocket : Option Connection
  event_type : String
  event_name : String
  debounce : Int
  return_property : Option String
  conditions : Option (List EventCondition)

/-- generate_event_conditions: returns None when the argument is falsy
(None or the empty list), otherwise the list of Property/Inequality/Value
dicts in the original order. -/
def generate_event_conditions (conditions : Conditions) : Option (List EventCondition) :=
  match conditions with
  | none => none
  | some [] => none
  | some cs => some (cs.map (fun piv => ⟨piv.1, piv.2.1, piv.2.2⟩))

/-- WebSocketStream.__init__: stores the arguments, sets websocket to None and
conditions to generate_event_conditions(conditions). -/
def WebSocketStream.init (uri event_type event_name : String) (debounce : Int)
    (return_property : Option String) (conditions : Conditions) : WebSocketStream :=
  { uri := uri
    websocket := none
    event_type := event_type
    event_name := event_name
    debounce := debounce
    return_property := return_property
    conditions := generate_event_conditions conditions }

/-- JSON encoding of an optional string (None becomes null). -/
def Json.ofOptStr : Option String → Json
  | none => Json.null
  | some s => Json.str s

/-- JSON encoding of one event-condition dict. -/
def EventCondition.toJson (c : EventCondition) : Json :=
  Json.obj [("Property", Json.str c.Property),
            ("Inequality", Json.str c.Inequality),
            ("Value", Json.str c.Value)]

/-- JSON encoding of the stored conditions (None becomes null). -/
def Json.ofConditions : Option (List EventCondition) → Json
  | none => Json.null
  | some cs => Json.arr (cs.map EventCondition.toJson)

/-- The subscribe request dict built by subscribe() and passed to json.dumps. -/
def WebSocketStream.sub_msg (self : WebSocketStream) : Json :=
  Json.obj [("Operation", Json.str "subscribe"),
            ("Type", Json.str self.event_type),
            ("DebounceMs", Json.num self.debounce),
            ("EventName", Json.str self.event_name),
            ("ReturnProperty", Json.ofOptStr self.return_property),
            ("EventConditions", Json.ofConditions self.conditions)]

/-- The unsubscribe request dict built by unsubscribe(). -/
def WebSocketStream.unsub_msg (self : WebSocketStream) : Json :=
  Json.obj [("Operation", Json.str "unsubscribe"),
            ("EventName", Json.str self.event_name)]

/-- The Python substring test (needle in haystack) on strings. -/
def strContains (haystack needle : String) : Bool :=
  decide (needle.toList <:+: haystack.toList)

/-- Network oracle for one subscribe() call: the outcome of websockets.connect
(None means connect raised), whether websocket.send succeeds, and the outcome
of websocket.recv (None means recv raised). -/
structure SubscribeNet where
  connectResult : Option Connection
  sendOk : Bool
  recvResult : Option String

/-- subscribe(): builds sub_msg, assigns self.websocket from connect, sends
the message, receives one response and raises unless the text "message"
occurs in it. The websocket attribute is assigned as soon as connect returns,
before any later step can fail; on a later failure the connection stays
attached. -/
def WebSocketStream.subscribe (self : WebSocketStream) (net : SubscribeNet) :
    WebSocketStream × Except WsError Unit × List NetAction :=
  let msg := self.sub_msg
  match net.connectResult with
  | none => (self, Except.error WsError.transportError, [])
  | some c =>
    let self1 := { self with websocket := some c }
    if net.sendOk then
      match net.recvResult with
      | none => (self1, Except.error WsError.transportError,
                 [NetAction.connect c, NetAction.send c msg])
      | some resp =>
        if strContains resp "message" then
          (self1, Except.ok (),
           [NetAction.connect c, NetAction.send c msg, NetAction.recv c resp])
        else
          (self1, Except.error (WsError.streamException resp),
           [NetAction.connect c, NetAction.send c msg, NetAction.recv c resp])
    else
      (self1, Except.error WsError.transportError, [NetAction.connect c])

/-- unsubscribe(): raises noActiveSubscription when self.websocket is None;
otherwise sends unsub_msg and then closes the connection. Sending on an
already closed connection raises inside the websockets library; when the send
fails the close line is never reached (there is no try/finally in the source),
and the websocket attribute is never reset to None. -/
def WebSocketStream.unsubscribe (self : WebSocketStream) (sendOk : Bool) :
    WebSocketStream × Except WsError Unit × List NetAction :=
  match self.websocket with
  | none => (self, Except.error (WsError.noActiveSubscription self.event_name), [])
  | some c =>
    let msg := self.unsub_msg
    if c.closed then
      (self, Except.error WsError.transportError, [])
    else if sendOk then
      ({ self with websocket := some { c with closed := true } }, Except.ok (),
       [NetAction.send c msg, NetAction.close c])
    else
      (self, Except.error WsError.transportError, [])

/-- get_message(): raises noActiveSubscription when self.websocket is None;
otherwise receives one message (recvResult, None meaning the recv raised) and
returns it. The returned string is the text the source passes to json.loads;
the parse itself is not modelled, no claim depends on the parsed value. -/
def WebSocketStream.get_message (self : WebSocketStream) (recvResult : Option String) :
    WebSocketStream × Except WsError String × List NetAction :=
  match self.websocket with
  | none => (self, Except.error (WsError.noActiveSubscription self.event_name), [])
  | some c =>
    if c.closed then
      (self, Except.error WsError.transportError, [])
    else
      match recvResult with
      | none => (self, Except.error WsError.transportError, [])
      | some msg => (self, Except.ok msg, [NetAction.recv c msg])

/-- The three conceptual lifecycle states of the design document. -/
inductive SubState where
  | UNSUBSCRIBED
  | SUBSCRIBED
  | CLOSED
deriving DecidableEq, Repr

/-- Abstraction from the concrete websocket attribute to the design states:
no connection means UNSUBSCRIBED, an open connection means SUBSCRIBED, a
closed connection means CLOSED. -/
def WebSocketStream.state (self : WebSocketStream) : SubState :=
  match self.websocket with
  | none => SubState.UNSUBSCRIBED
  | some c => if c.closed then SubState.CLOSED else SubState.SUBSCRIBED

/-- ApiWrapperMixin state: ip, derived URLs and the websockets registry
(a dict from event_name to WebSocketStream, modelled as a lookup function). -/
structure ApiWrapperMixin where
  ip : String
  api_url : String
  api_uri : String
  websockets : String → Option WebSocketStream

/-- ApiWrapperMixin.__init__. -/
def ApiWrapperMixin.init (ip : String) : ApiWrapperMixin :=
  { ip := ip
    api_url := "http://" ++ ip ++ "/api/"
    api_uri := "ws://" ++ ip ++ "/pubsub"
    websockets := fun _ => none }

/-- add_websocket: builds a fresh WebSocketStream and stores it in the
registry under event_name (a plain dict assignment: any prior entry under the
same key is overwritten, nothing is closed). The empty action list records
that the method performs no network call. -/
def ApiWrapperMixin.add_websocket (self : ApiWrapperMixin)
    (event_type event_name : String) (debounce : Int)
    (return_property : Option String) (conditions : Conditions) :
    ApiWrapperMixin × List NetAction :=
  let ws := WebSocketStream.init self.api_uri event_type event_name debounce
    return_property conditions
  ({ self with
      websockets := fun k => if k = event_name then some ws else self.websockets k },
   [])

/-- Python ValueError. -/
inductive PyError where
  | valueError (msg : String)
deriving DecidableEq, Repr

/-- The hazards list in Robot.add_hazard_notification. In the Python source
the literals "driveStopped" and "timeOfFlightSensorsHazardState" are adjacent
with no comma between them, so Python concatenates them into one entry and
the list has four elements. -/
def hazards : List String :=
  ["bumpSensorsHazardState", "criticalInternalError",
   "driveStoppedtimeOfFlightSensorsHazardState", "excessiveSpeedHazard"]

/-- Python list.remove: drop the first occurrence, or None when the element
is absent (in which case list.remove raises ValueError). -/
def removeFirst (l : List String) (x : String) : Option (List String) :=
  match l with
  | [] => none
  | y :: ys => if y = x then some ys else (removeFirst ys x).map (fun r => y :: r)

/-- The loop over hazard_type in the more-than-one-type branch: for each
entry, raise ValueError when it is not in hazards, else remove it from the
running exclude list (list.remove itself raises on a duplicate already
removed). Returns the final exclude_hazards list. -/
def hazardExcludeLoop (exclude : List String) (hs : List String) :
    Except PyError (List String) :=
  match hs with
  | [] => Except.ok exclude
  | h :: rest =>
    if h ∈ hazards then
      match removeFirst exclude h with
      | some ex => hazardExcludeLoop ex rest
      | none => Except.error (PyError.valueError "list.remove(x): x not in list")
    else
      Except.error (PyError.valueError ("Invalid hazard type " ++ h))

/-- The hazard_type argument: None, a single string, or a list of strings. -/
inductive HazardArg where
  | noneArg
  | str (h : String)
  | list (hs : List String)

/-- Python truthiness test on hazard_type (None, empty string and empty list
are falsy). -/
def HazardArg.isFalsy : HazardArg → Bool
  | HazardArg.noneArg => true
  | HazardArg.str s => s = ""
  | HazardArg.list hs => hs.isEmpty

/-- Robot.add_hazard_notification: computes the conditions from hazard_type
(None when falsy; a single equality condition for a valid single string, else
ValueError; for a list, exclusion conditions over hazards minus the requested
entries, raising ValueError on any entry not in hazards) and registers the
websocket under event_name with event type HazardNotification. The debounce
250 is the default of add_websocket. -/
def add_hazard_notification (self : ApiWrapperMixin) (event_name : String)
    (hazard_type : HazardArg) : Except PyError (ApiWrapperMixin × List NetAction) := do
  let conditions : Conditions ←
    if hazard_type.isFalsy then
      pure none
    else
      match hazard_type with
      | HazardArg.noneArg => pure none
      | HazardArg.str h =>
        if h ∈ hazards then
          pure (some [("Hazard", "==", h)])
        else
          Except.error (PyError.valueError ("Invalid hazard type " ++ h))
      | HazardArg.list hs => do
        let exclude ← hazardExcludeLoop hazards hs
        pure (some (exclude.map (fun h => ("Hazard", "!=", h))))
  pure (self.add_websocket "HazardNotification" event_name 250 none conditions)

/-- Spec-side description of the EventConditions field: the mirror of the
filter list as Property/Inequality/Value records in the original order, or
null when the filter list is empty or absent. -/
def mirrorConditions : Conditions → Json
  | none => Json.null
  | some [] => Json.null
  | some cs => Json.arr (cs.map (fun piv =>
      Json.obj [("Property", Json.str piv.1),
                ("Inequality", Json.str piv.2.1),
                ("Value", Json.str piv.2.2)]))

/-- Serializing the stored conditions of a freshly constructed stream gives
exactly the spec-side mirror of the constructor argument. -/
theorem ofConditions_generate (conds : Conditions) :
    Json.ofConditions (generate_event_conditions conds) = mirrorConditions conds := by
  match conds with
  | none => rfl
  | some [] => rfl
  | some (c :: cs) =>
    simp [generate_event_conditions, Json.ofConditions, mirrorConditions,
      EventCondition.toJson, List.map_map, Function.comp]

/-- The Python substring test succeeds exactly when the needle occurs as a
contiguous character run inside the haystack. -/
theorem strContains_iff (haystack needle : String) :
    strContains haystack needle = true
      ↔ ∃ s t, s ++ needle.toList ++ t = haystack.toList := by
  unfold strContains
  rw [decide_eq_true_iff]
  exact Iff.rfl

/-- Claim C1: for every construction of a WebSocketStream with an event_name,
event_type, debounce interval, optional return_property and filter condition
list, subscribe() sends a subscribe request record with keys Operation
(= "subscribe"), Type, DebounceMs, EventName, ReturnProperty and
EventConditions, where EventConditions exactly mirrors the filter list as
Property/Inequality/Value records in the original order, or is null if the
filter list was empty or absent. Stated for any run whose connect step
returned a connection and whose send step succeeded. -/
theorem C1_subscribe_request_format (uri ty name : String) (deb : Int)
    (rp : Option String) (conds : Conditions) (net : SubscribeNet) (c : Connection)
    (h1 : net.connectResult = some c) (h2 : net.sendOk = true) :
    NetAction.send c (Json.obj
      [("Operation", Json.str "subscribe"),
       ("Type", Json.str ty),
       ("DebounceMs", Json.num deb),
       ("EventName", Json.str name),
       ("ReturnProperty", Json.ofOptStr rp),
       ("EventConditions", mirrorConditions conds)])
      ∈ ((WebSocketStream.init uri ty name deb rp conds).subscribe net).2.2 := by
  obtain ⟨cr, so, rr⟩ := net
  simp only at h1 h2
  subst h1; subst h2
  have hmsg : (WebSocketStream.init uri ty name deb rp conds).sub_msg
      = Json.obj
        [("Operation", Json.str "subscribe"),
         ("Type", Json.str ty),
         ("DebounceMs", Json.num deb),
         ("EventName", Json.str name),
         ("ReturnProperty", Json.ofOptStr rp),
         ("EventConditions", mirrorConditions conds)] := by
    simp [WebSocketStream.init, WebSocketStream.sub_msg, ofConditions_generate]
  cases rr with
  | none => simp [WebSocketStream.subscribe, hmsg]
  | some resp =>
    by_cases hm : strContains resp "message" = true
    · simp [WebSocketStream.subscribe, hm, hmsg]
    · simp only [Bool.not_eq_true] at hm
      simp [WebSocketStream.subscribe, hm, hmsg]

/-- Witness for C1 at a concrete construction and run. -/
theorem C1_subscribe_request_format_witness :
    (({ connectResult := some ⟨0, false⟩, sendOk := true,
        recvResult := some "registered message" } : SubscribeNet).connectResult
        = some ⟨0, false⟩)
    ∧ (({ connectResult := some ⟨0, false⟩, sendOk := true,
          recvResult := some "registered message" } : SubscribeNet).sendOk = true)
    ∧ NetAction.send ⟨0, false⟩ (Json.obj
        [("Operation", Json.str "subscribe"),
         ("Type", Json.str "TouchSensor"),
         ("DebounceMs", Json.num 250),
         ("EventName", Json.str "touch1"),
         ("ReturnProperty", Json.ofOptStr none),
         ("EventConditions", mirrorConditions (some [("sensorPosition", "==", "Chin")]))])
      ∈ ((WebSocketStream.init "ws://10.0.0.1/pubsub" "TouchSensor" "touch1" 250 none
          (some [("sensorPosition", "==", "Chin")])).subscribe
          { connectResult := some ⟨0, false⟩, sendOk := true,
            recvResult := some "registered message" }).2.2 :=
  ⟨rfl, rfl,
    C1_subscribe_request_format "ws://10.0.0.1/pubsub" "TouchSensor" "touch1" 250 none
      (some [("sensorPosition", "==", "Chin")])
      { connectResult := some ⟨0, false⟩, sendOk := true,
        recvResult := some "registered message" }
      ⟨0, false⟩ rfl rfl⟩

/-- Claim C8: the client performs no validation of the inequality operator of
a filter condition triple. For every nonempty filter list, with arbitrary
operator strings (valid or not), generate_event_conditions returns exactly the
mirrored triples, and the serialized subscribe request carries them unchanged;
no triple is ever rejected client-side. -/
theorem C8_no_operator_validation (uri ty name : String) (deb : Int)
    (rp : Option String) (cs : List (String × String × String)) (h : cs ≠ []) :
    generate_event_conditions (some cs)
      = some (cs.map (fun piv => ⟨piv.1, piv.2.1, piv.2.2⟩))
    ∧ (WebSocketStream.init uri ty name deb rp (some cs)).sub_msg
      = Json.obj
        [("Operation", Json.str "subscribe"),
         ("Type", Json.str ty),
         ("DebounceMs", Json.num deb),
         ("EventName", Json.str name),
         ("ReturnProperty", Json.ofOptStr rp),
         ("EventConditions", Json.arr (cs.map (fun piv =>
            Json.obj [("Property", Json.str piv.1),
                      ("Inequality", Json.str piv.2.1),
                      ("Value", Json.str piv.2.2)])))] := by
  match cs, h with
  | c :: cs, _ =>
    constructor
    · rfl
    · have := ofConditions_generate (some (c :: cs))
      simp [WebSocketStream.init, WebSocketStream.sub_msg, this, mirrorConditions]

/-- Witness for C8 at a triple whose operator is not one of the documented
comparison operators. -/
theorem C8_no_operator_validation_witness :
    ([("sensorPosition", "NOT_AN_OPERATOR", "Chin")]
        ≠ ([] : List (String × String × String)))
    ∧ (generate_event_conditions (some [("sensorPosition", "NOT_AN_OPERATOR", "Chin")])
        = some [⟨"sensorPosition", "NOT_AN_OPERATOR", "Chin"⟩]
      ∧ (WebSocketStream.init "ws://10.0.0.1/pubsub" "TouchSensor" "touch1" 250 none
          (some [("sensorPosition", "NOT_AN_OPERATOR", "Chin")])).sub_msg
        = Json.obj
          [("Operation", Json.str "subscribe"),
           ("Type", Json.str "TouchSensor"),
           ("DebounceMs", Json.num 250),
           ("EventName", Json.str "touch1"),
           ("ReturnProperty", Json.ofOptStr none),
           ("EventConditions", Json.arr
              [Json.obj [("Property", Json.str "sensorPosition"),
                         ("Inequality", Json.str "NOT_AN_OPERATOR"),
                         ("Value", Json.str "Chin")]])]) :=
  ⟨by simp,
    by
      have := C8_no_operator_validation "ws://10.0.0.1/pubsub" "TouchSensor" "touch1" 250
        none [("sensorPosition", "NOT_AN_OPERATOR", "Chin")] (by simp)
      simpa using this⟩

/-- Claim C9: subscribe() treats the response as acknowledged exactly when the
character sequence "message" occurs anywhere in the raw response text, a plain
substring test: any response containing that run of characters is accepted and
any response without it raises the rejection exception carrying the raw
response. -/
theorem C9_ack_is_substring_test (ws : WebSocketStream) (net : SubscribeNet)
    (c : Connection) (resp : String)
    (h1 : net.connectResult = some c) (h2 : net.sendOk = true)
    (h3 : net.recvResult = some resp) :
    ((ws.subscribe net).2.1 = Except.ok ()
      ↔ ∃ s t, s ++ "message".toList ++ t = resp.toList)
    ∧ (¬ (∃ s t, s ++ "message".toList ++ t = resp.toList) →
        (ws.subscribe net).2.1 = Except.error (WsError.streamException resp)) := by
  obtain ⟨cr, so, rr⟩ := net
  simp only at h1 h2 h3
  subst h1; subst h2; subst h3
  by_cases hm : strContains resp "message" = true
  · have hocc := (strContains_iff resp "message").mp hm
    constructor
    · simp only [WebSocketStream.subscribe, hm, if_true]
      simpa using hocc
    · intro hno
      exact absurd hocc hno
  · have hocc : ¬ ∃ s t, s ++ "message".toList ++ t = resp.toList :=
      fun hx => hm ((strContains_iff resp "message").mpr hx)
    simp only [Bool.not_eq_true] at hm
    constructor
    · simp only [WebSocketStream.subscribe, hm]
      simpa using hocc
    · intro _
      simp [WebSocketStream.subscribe, hm]

/-- Witness for C9: a rejection-style payload whose error text happens to
contain the word "message" is accepted as an acknowledgment. -/
theorem C9_ack_is_substring_test_witness :
    (({ connectResult := some ⟨3, false⟩, sendOk := true,
        recvResult := some "error: invalid message format" } : SubscribeNet).connectResult
        = some ⟨3, false⟩)
    ∧ (((WebSocketStream.init "ws://10.0.0.2/pubsub" "IMU" "imu1" 250 none none).subscribe
          { connectResult := some ⟨3, false⟩, sendOk := true,
            recvResult := some "error: invalid message format" }).2.1 = Except.ok ()
        ↔ ∃ s t, s ++ "message".toList ++ t = "error: invalid message format".toList) :=
  ⟨rfl,
    (C9_ack_is_substring_test
      (WebSocketStream.init "ws://10.0.0.2/pubsub" "IMU" "imu1" 250 none none)
      { connectResult := some ⟨3, false⟩, sendOk := true,
        recvResult := some "error: invalid message format" }
      ⟨3, false⟩ "error: invalid message format" rfl rfl rfl).1⟩

/-- Counterexample to claim C2: after a subscribe whose response "rejected"
lacks the acknowledgment marker, the exception carries the raw response, but
the state does not remain UNSUBSCRIBED: the freshly opened connection stays
attached, so the stream is SUBSCRIBED and a subsequent get_message or
unsubscribe succeeds instead of failing with the no-active-subscription
exception. -/
theorem C2_counterexample :
    ((WebSocketStream.init "ws://192.168.1.2/pubsub" "IMU" "imu1" 250 none none).subscribe
        { connectResult := some ⟨0, false⟩, sendOk := true,
          recvResult := some "rejected" }).2.1
      = Except.error (WsError.streamException "rejected")
    ∧ ((WebSocketStream.init "ws://192.168.1.2/pubsub" "IMU" "imu1" 250 none none).subscribe
        { connectResult := some ⟨0, false⟩, sendOk := true,
          recvResult := some "rejected" }).1.state = SubState.SUBSCRIBED
    ∧ SubState.SUBSCRIBED ≠ SubState.UNSUBSCRIBED
    ∧ (((WebSocketStream.init "ws://192.168.1.2/pubsub" "IMU" "imu1" 250 none none).subscribe
        { connectResult := some ⟨0, false⟩, sendOk := true,
          recvResult := some "rejected" }).1.get_message (some "data")).2.1
      = Except.ok "data"
    ∧ (∀ nm, (Except.ok "data" : Except WsError String)
        ≠ Except.error (WsError.noActiveSubscription nm))
    ∧ (((WebSocketStream.init "ws://192.168.1.2/pubsub" "IMU" "imu1" 250 none none).subscribe
        { connectResult := some ⟨0, false⟩, sendOk := true,
          recvResult := some "rejected" }).1.unsubscribe true).2.1 = Except.ok ()
    ∧ (∀ nm, (Except.ok () : Except WsError Unit)
        ≠ Except.error (WsError.noActiveSubscription nm)) :=
  ⟨rfl, rfl, by decide, rfl, fun _ h => Except.noConfusion h, rfl,
    fun _ h => Except.noConfusion h⟩

/-- Claim C2 (amended): if the response to the subscribe request lacks the
acknowledgment marker, subscribe() fails with the rejection exception carrying
the raw server response, but the state does not remain UNSUBSCRIBED: the
connection opened by the failed call stays attached (the stream becomes
SUBSCRIBED), and a subsequent get_message or unsubscribe does not fail with
the no-active-subscription exception but operates on the leaked connection. -/
theorem C2_rejected_subscribe_leaks_connection (ws : WebSocketStream)
    (net : SubscribeNet) (c : Connection) (resp : String)
    (h0 : ws.websocket = none) (h1 : net.connectResult = some c)
    (h2 : net.sendOk = true) (h3 : net.recvResult = some resp)
    (h4 : strContains resp "message" = false) (h5 : c.closed = false) :
    ws.state = SubState.UNSUBSCRIBED
    ∧ (ws.subscribe net).2.1 = Except.error (WsError.streamException resp)
    ∧ (ws.subscribe net).1.websocket = some c
    ∧ (ws.subscribe net).1.state = SubState.SUBSCRIBED
    ∧ (∀ rcv, ((ws.subscribe net).1.get_message rcv).2.1
        ≠ Except.error (WsError.noActiveSubscription ws.event_name))
    ∧ (∀ sOk, ((ws.subscribe net).1.unsubscribe sOk).2.1
        ≠ Except.error (WsError.noActiveSubscription ws.event_name)) := by
  obtain ⟨cr, so, rr⟩ := net
  simp only at h1 h2 h3
  subst h1; subst h2; subst h3
  refine ⟨?_, ?_, ?_, ?_, ?_, ?_⟩
  · simp [WebSocketStream.state, h0]
  · simp [WebSocketStream.subscribe, h4]
  · simp [WebSocketStream.subscribe, h4]
  · simp [WebSocketStream.subscribe, h4, WebSocketStream.state, h5]
  · intro rcv
    cases rcv <;>
      simp [WebSocketStream.subscribe, h4, WebSocketStream.get_message, h5]
  · intro sOk
    cases sOk <;>
      simp [WebSocketStream.subscribe, h4, WebSocketStream.unsubscribe, h5]

/-- Witness for the amended C2 at a concrete rejected subscribe. -/
theorem C2_rejected_subscribe_leaks_connection_witness :
    ((WebSocketStream.init "ws://192.168.1.3/pubsub" "IMU" "imu2" 250 none none).websocket
      = none)
    ∧ (strContains "denied" "message" = false)
    ∧ (((WebSocketStream.init "ws://192.168.1.3/pubsub" "IMU" "imu2" 250 none none).subscribe
        { connectResult := some ⟨1, false⟩, sendOk := true,
          recvResult := some "denied" }).1.state = SubState.SUBSCRIBED) :=
  ⟨rfl, by decide,
    (C2_rejected_subscribe_leaks_connection
      (WebSocketStream.init "ws://192.168.1.3/pubsub" "IMU" "imu2" 250 none none)
      { connectResult := some ⟨1, false⟩, sendOk := true, recvResult := some "denied" }
      ⟨1, false⟩ "denied" rfl rfl rfl rfl (by decide) rfl).2.2.2.1⟩

/-- Counterexample to claim C3: on a SUBSCRIBED stream whose send of the
unsubscribe request fails, the connection is NOT closed (there is no
try/finally in the source): the call raises the transport error, the websocket
attribute still holds the open connection, the state is still SUBSCRIBED and
no close action was performed. -/
theorem C3_counterexample :
    (WebSocketStream.unsubscribe
        ⟨"ws://h/pubsub", some ⟨0, false⟩, "IMU", "imu1", 250, none, none⟩ false).2.1
      = Except.error WsError.transportError
    ∧ (WebSocketStream.unsubscribe
        ⟨"ws://h/pubsub", some ⟨0, false⟩, "IMU", "imu1", 250, none, none⟩ false).1.websocket
      = some ⟨0, false⟩
    ∧ (WebSocketStream.unsubscribe
        ⟨"ws://h/pubsub", some ⟨0, false⟩, "IMU", "imu1", 250, none, none⟩ false).1.state
      = SubState.SUBSCRIBED
    ∧ (WebSocketStream.unsubscribe
        ⟨"ws://h/pubsub", some ⟨0, false⟩, "IMU", "imu1", 250, none, none⟩ false).2.2
      = ([] : List NetAction) :=
  ⟨rfl, rfl, rfl, rfl⟩

/-- Claim C3 (amended): on a SUBSCRIBED stream, unsubscribe() sends an
unsubscribe request containing the operation tag and subscription name and
awaits no response; when the send succeeds it closes the connection and
returns normally (state CLOSED), but when the send fails the exception
propagates, the close line is never reached and the connection is left open
(state unchanged). -/
theorem C3_unsubscribe_no_close_on_send_failure (ws : WebSocketStream)
    (c : Connection) (h : ws.websocket = some c) (hc : c.closed = false) :
    ws.unsub_msg
      = Json.obj [("Operation", Json.str "unsubscribe"),
                  ("EventName", Json.str ws.event_name)]
    ∧ ((ws.unsubscribe true).2.1 = Except.ok ()
        ∧ (ws.unsubscribe true).2.2 = [NetAction.send c ws.unsub_msg, NetAction.close c]
        ∧ (ws.unsubscribe true).1.state = SubState.CLOSED)
    ∧ ((ws.unsubscribe false).2.1 = Except.error WsError.transportError
        ∧ (ws.unsubscribe false).2.2 = ([] : List NetAction)
        ∧ (ws.unsubscribe false).1 = ws) := by
  refine ⟨rfl, ⟨?_, ?_, ?_⟩, ⟨?_, ?_, ?_⟩⟩ <;>
    simp [WebSocketStream.unsubscribe, WebSocketStream.state, h, hc]

/-- Witness for the amended C3 at a concrete subscribed stream. -/
theorem C3_unsubscribe_no_close_on_send_failure_witness :
    ((⟨"ws://h2/pubsub", some ⟨7, false⟩, "IMU", "imu3", 250, none, none⟩
        : WebSocketStream).websocket = some ⟨7, false⟩)
    ∧ ((⟨7, false⟩ : Connection).closed = false)
    ∧ ((WebSocketStream.unsubscribe
          ⟨"ws://h2/pubsub", some ⟨7, false⟩, "IMU", "imu3", 250, none, none⟩ false).2.2
        = ([] : List NetAction)) :=
  ⟨rfl, rfl,
    (C3_unsubscribe_no_close_on_send_failure
      ⟨"ws://h2/pubsub", some ⟨7, false⟩, "IMU", "imu3", 250, none, none⟩
      ⟨7, false⟩ rfl rfl).2.2.2.1⟩

/-- Counterexample to claim C4: after a successful subscribe and a successful
unsubscribe, a second unsubscribe does NOT fail with the
no-active-subscription exception: the websocket attribute still holds the
(now closed) connection object, so the second call attempts a send on the
closed connection and raises a transport-level error. -/
theorem C4_counterexample :
    ((WebSocketStream.init "ws://h3/pubsub" "IMU" "imu4" 250 none none).subscribe
        { connectResult := some ⟨0, false⟩, sendOk := true,
          recvResult := some "message ack" }).2.1 = Except.ok ()
    ∧ ((WebSocketStream.init "ws://h3/pubsub" "IMU" "imu4" 250 none none).subscribe
        { connectResult := some ⟨0, false⟩, sendOk := true,
          recvResult := some "message ack" }).1.state = SubState.SUBSCRIBED
    ∧ (((WebSocketStream.init "ws://h3/pubsub" "IMU" "imu4" 250 none none).subscribe
        { connectResult := some ⟨0, false⟩, sendOk := true,
          recvResult := some "message ack" }).1.unsubscribe true).2.1 = Except.ok ()
    ∧ (((WebSocketStream.init "ws://h3/pubsub" "IMU" "imu4" 250 none none).subscribe
        { connectResult := some ⟨0, false⟩, sendOk := true,
          recvResult := some "message ack" }).1.unsubscribe true).1.state = SubState.CLOSED
    ∧ ((((WebSocketStream.init "ws://h3/pubsub" "IMU" "imu4" 250 none none).subscribe
        { connectResult := some ⟨0, false⟩, sendOk := true,
          recvResult := some "message ack" }).1.unsubscribe true).1.unsubscribe true).2.1
      = Except.error WsError.transportError
    ∧ (∀ nm, (Except.error WsError.transportError : Except WsError Unit)
        ≠ Except.error (WsError.noActiveSubscription nm)) :=
  ⟨rfl, rfl, rfl, rfl, rfl,
    fun _ h => WsError.noConfusion (Except.error.inj h)⟩

/-- Claim C4 (amended): after a successful subscribe() the state is
SUBSCRIBED, and after a successful unsubscribe() the state is CLOSED; but a
second unsubscribe() then fails with a transport-level error from sending on
the closed connection, not with the no-active-subscription exception, because
the websocket attribute is never reset to None. -/
theorem C4_second_unsubscribe_transport_error (ws : WebSocketStream)
    (net : SubscribeNet) (c : Connection)
    (h1 : net.connectResult = some c) (hc : c.closed = false)
    (hok : (ws.subscribe net).2.1 = Except.ok ()) :
    (ws.subscribe net).1.state = SubState.SUBSCRIBED
    ∧ ((ws.subscribe net).1.unsubscribe true).2.1 = Except.ok ()
    ∧ ((ws.subscribe net).1.unsubscribe true).1.state = SubState.CLOSED
    ∧ (∀ sOk, (((ws.subscribe net).1.unsubscribe true).1.unsubscribe sOk).2.1
        = Except.error WsError.transportError)
    ∧ (∀ sOk nm, (((ws.subscribe net).1.unsubscribe true).1.unsubscribe sOk).2.1
        ≠ Except.error (WsError.noActiveSubscription nm)) := by
  obtain ⟨cr, so, rr⟩ := net
  simp only at h1
  subst h1
  cases so with
  | false => simp [WebSocketStream.subscribe] at hok
  | true =>
    cases rr with
    | none => simp [WebSocketStream.subscribe] at hok
    | some resp =>
      by_cases hm : strContains resp "message" = true
      · refine ⟨?_, ?_, ?_, ?_, ?_⟩ <;>
          simp [WebSocketStream.subscribe, hm, WebSocketStream.unsubscribe,
            WebSocketStream.state, hc]
      · simp only [Bool.not_eq_true] at hm
        simp [WebSocketStream.subscribe, hm] at hok

/-- Witness for the amended C4 at a concrete full lifecycle. -/
theorem C4_second_unsubscribe_transport_error_witness :
    (({ connectResult := some ⟨4, false⟩, sendOk := true,
        recvResult := some "message ok" } : SubscribeNet).connectResult = some ⟨4, false⟩)
    ∧ (((WebSocketStream.init "ws://h4/pubsub" "IMU" "imu5" 250 none none).subscribe
        { connectResult := some ⟨4, false⟩, sendOk := true,
          recvResult := some "message ok" }).2.1 = Except.ok ())
    ∧ (((WebSocketStream.init "ws://h4/pubsub" "IMU" "imu5" 250 none none).subscribe
        { connectResult := some ⟨4, false⟩, sendOk := true,
          recvResult := some "message ok" }).1.unsubscribe true).1.state
      = SubState.CLOSED :=
  ⟨rfl, rfl,
    (C4_second_unsubscribe_transport_error
      (WebSocketStream.init "ws://h4/pubsub" "IMU" "imu5" 250 none none)
      { connectResult := some ⟨4, false⟩, sendOk := true, recvResult := some "message ok" }
      ⟨4, false⟩ rfl rfl rfl).2.2.1⟩

/-- Counterexample to claim C5: after a subscribe attempt that was rejected by
the server (so no successful subscribe has occurred), get_message does NOT
fail with the no-active-subscription exception: it reads from the leaked
connection, and unsubscribe also succeeds. -/
theorem C5_counterexample :
    ((WebSocketStream.init "ws://h5/pubsub" "TouchSensor" "t1" 250 none none).subscribe
        { connectResult := some ⟨2, false⟩, sendOk := true,
          recvResult := some "nope" }).2.1
      = Except.error (WsError.streamException "nope")
    ∧ (((WebSocketStream.init "ws://h5/pubsub" "TouchSensor" "t1" 250 none none).subscribe
        { connectResult := some ⟨2, false⟩, sendOk := true,
          recvResult := some "nope" }).1.get_message (some "payload")).2.1
      = Except.ok "payload"
    ∧ (∀ nm, (Except.ok "payload" : Except WsError String)
        ≠ Except.error (WsError.noActiveSubscription nm))
    ∧ (((WebSocketStream.init "ws://h5/pubsub" "TouchSensor" "t1" 250 none none).subscribe
        { connectResult := some ⟨2, false⟩, sendOk := true,
          recvResult := some "nope" }).1.unsubscribe true).2.1 = Except.ok () :=
  ⟨rfl, rfl, fun _ h => Except.noConfusion h, rfl⟩

/-- Claim C5 (amended): on a WebSocketStream whose websocket attribute is
still None — in particular on a freshly constructed stream, before any
subscribe() call — get_message and unsubscribe fail immediately with the
no-active-subscription exception, leave the state untouched and perform no
network action; this guarantee is stated in terms of the attribute because a
failed subscribe() attempt that reached the connect step leaves a connection
attached and then escapes it. -/
theorem C5_never_subscribed_operations_fail (ws : WebSocketStream)
    (h : ws.websocket = none) :
    (∀ rcv, (ws.get_message rcv).1 = ws
      ∧ (ws.get_message rcv).2.1
        = Except.error (WsError.noActiveSubscription ws.event_name)
      ∧ (ws.get_message rcv).2.2 = ([] : List NetAction))
    ∧ (∀ sOk, (ws.unsubscribe sOk).1 = ws
      ∧ (ws.unsubscribe sOk).2.1
        = Except.error (WsError.noActiveSubscription ws.event_name)
      ∧ (ws.unsubscribe sOk).2.2 = ([] : List NetAction))
    ∧ (∀ uri ty nm deb rp conds,
        (WebSocketStream.init uri ty nm deb rp conds).websocket = none) := by
  refine ⟨fun rcv => ⟨?_, ?_, ?_⟩, fun sOk => ⟨?_, ?_, ?_⟩,
    fun _ _ _ _ _ _ => rfl⟩ <;>
    simp [WebSocketStream.get_message, WebSocketStream.unsubscribe, h]

/-- Witness for the amended C5 at a freshly constructed stream. -/
theorem C5_never_subscribed_operations_fail_witness :
    ((WebSocketStream.init "ws://h6/pubsub" "IMU" "imu6" 250 none none).websocket = none)
    ∧ (((WebSocketStream.init "ws://h6/pubsub" "IMU" "imu6" 250 none none).get_message
          (some "data")).2.1
        = Except.error (WsError.noActiveSubscription
            (WebSocketStream.init "ws://h6/pubsub" "IMU" "imu6" 250 none none).event_name)) :=
  ⟨rfl,
    ((C5_never_subscribed_operations_fail
      (WebSocketStream.init "ws://h6/pubsub" "IMU" "imu6" 250 none none) rfl).1
      (some "data")).2.1⟩

/-- Claim C6: calling subscribe() on an already SUBSCRIBED stream does not
fail (given the server acknowledges): it silently replaces the live connection
by the newly opened one, and no close action is performed on the old
connection. -/
theorem C6_resubscribe_replaces_connection (ws : WebSocketStream)
    (old c : Connection) (net : SubscribeNet) (resp : String)
    (h0 : ws.websocket = some old) (hold : old.closed = false)
    (h1 : net.connectResult = some c) (h2 : net.sendOk = true)
    (h3 : net.recvResult = some resp) (h4 : strContains resp "message" = true) :
    ws.state = SubState.SUBSCRIBED
    ∧ (ws.subscribe net).2.1 = Except.ok ()
    ∧ (ws.subscribe net).1.websocket = some c
    ∧ (∀ d, NetAction.close d ∉ (ws.subscribe net).2.2) := by
  obtain ⟨cr, so, rr⟩ := net
  simp only at h1 h2 h3
  subst h1; subst h2; subst h3
  refine ⟨?_, ?_, ?_, ?_⟩
  · simp [WebSocketStream.state, h0, hold]
  · simp [WebSocketStream.subscribe, h4]
  · simp [WebSocketStream.subscribe, h4]
  · intro d hd
    simp only [WebSocketStream.subscribe, h4, if_true, List.mem_cons,
      List.not_mem_nil, or_false] at hd
    rcases hd with h | h | h <;> exact NetAction.noConfusion h

/-- Witness for C6 at a concrete already-subscribed stream. -/
theorem C6_resubscribe_replaces_connection_witness :
    ((⟨"ws://h7/pubsub", some ⟨5, false⟩, "IMU", "imu7", 250, none, none⟩
        : WebSocketStream).websocket = some ⟨5, false⟩)
    ∧ (strContains "message data" "message" = true)
    ∧ ((WebSocketStream.subscribe
          ⟨"ws://h7/pubsub", some ⟨5, false⟩, "IMU", "imu7", 250, none, none⟩
          { connectResult := some ⟨6, false⟩, sendOk := true,
            recvResult := some "message data" }).1.websocket = some ⟨6, false⟩) :=
  ⟨rfl, by decide,
    (C6_resubscribe_replaces_connection
      ⟨"ws://h7/pubsub", some ⟨5, false⟩, "IMU", "imu7", 250, none, none⟩
      ⟨5, false⟩ ⟨6, false⟩
      { connectResult := some ⟨6, false⟩, sendOk := true,
        recvResult := some "message data" }
      "message data" rfl rfl rfl rfl rfl (by decide)).2.2.1⟩

/-- Claim C7: add_websocket with an event_name that is already registered does
not fail, maps that event_name to the newly constructed stream (the prior
entry is replaced; nothing is closed, as the empty action list shows), and
leaves every entry under any other event_name unchanged. -/
theorem C7_add_websocket_replaces_entry (m : ApiWrapperMixin) (ty nm : String)
    (deb : Int) (rp : Option String) (conds : Conditions) (old : WebSocketStream)
    (h : m.websockets nm = some old) :
    (m.add_websocket ty nm deb rp conds).1.websockets nm
      = some (WebSocketStream.init m.api_uri ty nm deb rp conds)
    ∧ (∀ k, k ≠ nm → (m.add_websocket ty nm deb rp conds).1.websockets k
        = m.websockets k)
    ∧ (m.add_websocket ty nm deb rp conds).2 = ([] : List NetAction) := by
  refine ⟨?_, ?_, rfl⟩
  · simp [ApiWrapperMixin.add_websocket]
  · intro k hk
    simp [ApiWrapperMixin.add_websocket, hk]

/-- Witness for C7: register imu8 once, then register imu8 again with a
different event type; the entry is replaced by the newly constructed stream. -/
theorem C7_add_websocket_replaces_entry_witness :
    ((((ApiWrapperMixin.init "192.168.1.9").add_websocket "IMU" "imu8" 250 none
        none).1).websockets "imu8"
      = some (WebSocketStream.init
          ((ApiWrapperMixin.init "192.168.1.9").add_websocket "IMU" "imu8" 250 none
            none).1.api_uri "IMU" "imu8" 250 none none))
    ∧ (((((ApiWrapperMixin.init "192.168.1.9").add_websocket "IMU" "imu8" 250 none
          none).1).add_websocket "TouchSensor" "imu8" 300 none none).1.websockets "imu8"
      = some (WebSocketStream.init
          ((ApiWrapperMixin.init "192.168.1.9").add_websocket "IMU" "imu8" 250 none
            none).1.api_uri "TouchSensor" "imu8" 300 none none)) :=
  ⟨rfl,
    (C7_add_websocket_replaces_entry
      ((ApiWrapperMixin.init "192.168.1.9").add_websocket "IMU" "imu8" 250 none none).1
      "TouchSensor" "imu8" 300 none none
      (WebSocketStream.init
        ((ApiWrapperMixin.init "192.168.1.9").add_websocket "IMU" "imu8" 250 none
          none).1.api_uri "IMU" "imu8" 250 none none)
      rfl).1⟩

/-- If some requested entry is not in the hazards list, the loop over the
requested hazard types always raises a ValueError, whatever the running
exclude list is. -/
theorem hazardExcludeLoop_mem_error (hs : List String) (x : String)
    (hx : x ∈ hs) (hnot : x ∉ hazards) :
    ∀ exclude, ∃ msg, hazardExcludeLoop exclude hs
      = Except.error (PyError.valueError msg) := by
  induction hs with
  | nil => exact absurd hx (List.not_mem_nil x)
  | cons hd rest ih =>
    intro exclude
    by_cases hh : hd ∈ hazards
    · have hxr : x ∈ rest := by
        rcases List.mem_cons.mp hx with he | hr
        · exact absurd hh (he ▸ hnot)
        · exact hr
      cases hrm : removeFirst exclude hd with
      | some ex =>
        obtain ⟨msg, hmsg⟩ := ih hxr ex
        exact ⟨msg, by simp [hazardExcludeLoop, hh, hrm, hmsg]⟩
      | none =>
        exact ⟨"list.remove(x): x not in list", by simp [hazardExcludeLoop, hh, hrm]⟩
    · exact ⟨"Invalid hazard type " ++ hd, by simp [hazardExcludeLoop, hh]⟩

/-- Claim C10: add_hazard_notification raises ValueError whenever hazard_type
contains the documented type timeOfFlightSensorsHazardState, or driveStopped
appears in a requested list, because the internal hazards list holds the
single concatenated entry driveStoppedtimeOfFlightSensorsHazardState instead
of the two separate entries. -/
theorem C10_hazard_list_missing_comma (self : ApiWrapperMixin) (event_name : String)
    (hs : List String)
    (hmem : "timeOfFlightSensorsHazardState" ∈ hs ∨ "driveStopped" ∈ hs) :
    (∃ msg, add_hazard_notification self event_name (HazardArg.list hs)
        = Except.error (PyError.valueError msg))
    ∧ (∃ msg, add_hazard_notification self event_name
          (HazardArg.str "timeOfFlightSensorsHazardState")
        = Except.error (PyError.valueError msg))
    ∧ hazards = ["bumpSensorsHazardState", "criticalInternalError",
        "driveStoppedtimeOfFlightSensorsHazardState", "excessiveSpeedHazard"]
    ∧ "driveStopped" ∉ hazards
    ∧ "timeOfFlightSensorsHazardState" ∉ hazards := by
  have key : ∃ x, x ∈ hs ∧ x ∉ hazards := by
    rcases hmem with h | h
    · exact ⟨_, h, by decide⟩
    · exact ⟨_, h, by decide⟩
  obtain ⟨x, hx, hnot⟩ := key
  obtain ⟨msg, hmsg⟩ := hazardExcludeLoop_mem_error hs x hx hnot hazards
  have hne : hs.isEmpty = false := by
    cases hs with
    | nil => exact absurd hx (List.not_mem_nil x)
    | cons a l => rfl
  refine ⟨⟨msg, ?_⟩,
    ⟨"Invalid hazard type timeOfFlightSensorsHazardState", ?_⟩,
    rfl, by decide, by decide⟩
  · simp [add_hazard_notification, HazardArg.isFalsy, hne, hmsg]
  · rfl

/-- Witness for C10: driveStopped inside a two-element request list. -/
theorem C10_hazard_list_missing_comma_witness :
    ("timeOfFlightSensorsHazardState"
        ∈ (["driveStopped", "bumpSensorsHazardState"] : List String)
      ∨ "driveStopped" ∈ (["driveStopped", "bumpSensorsHazardState"] : List String))
    ∧ (∃ msg, add_hazard_notification (ApiWrapperMixin.init "192.168.1.10") "haz1"
        (HazardArg.list ["driveStopped", "bumpSensorsHazardState"])
        = Except.error (PyError.valueError msg)) :=
  ⟨Or.inr (by simp),
    (C10_hazard_list_missing_comma (ApiWrapperMixin.init "192.168.1.10") "haz1"
      ["driveStopped", "bumpSensorsHazardState"] (Or.inr (by simp))).1⟩

end Misty

example : Misty.generate_event_conditions (some [("a", "==", "b")])
    = some [⟨"a", "==", "b"⟩] := rfl

example : Misty.strContains "a message here" "message" = true := by decide

example : Misty.strContains "rejected" "message" = false := by decide
